import Mathlib

/-
Verification development for the Code & Brew client-side site.

The development shallowly embeds the storage-backed CRUD layer, the form
validators and the blog list renderer of the repository's JavaScript
sources (src/js/contactForm.js, src/js/blog.js, and the unnamed account /
welcome-dashboard scripts).  Browser storage is modelled as an explicit
state value that a read or write operation threads through; a storage
call that can throw (store disabled, quota exceeded) is modelled in
`Except`, and the JavaScript try/catch blocks are translated as explicit
recoveries on the `Except` value.
-/

set_option autoImplicit false

/-! ## Browser storage model

`localStorage.getItem` returns either `null` (no value under the key) or a
string.  For a repository key the stored string either fails `JSON.parse`
(including the empty string, which is falsy in the source's `data ?
JSON.parse(data) : []` guard) or parses to an array of records, so a
stored cell is modelled at that level of abstraction. -/

/-- A raw value stored under a repository key: either a string that
`JSON.parse` rejects, or one that parses to an array of records. -/
inductive StoredVal (α : Type) where
  | corrupt
  | arr (elems : List α)
  deriving DecidableEq

/-- The state of one browser-storage key.  `disabled` models a store whose
operations throw; `avail cell quotaFull` models an enabled store holding
`cell` under the key, whose writes throw when `quotaFull` is true. -/
inductive StoreState (α : Type) where
  | disabled
  | avail (cell : Option (StoredVal α)) (quotaFull : Bool)
  deriving DecidableEq

/-- `localStorage.getItem(key)`: throws if the store is disabled,
otherwise returns the cell (with `none` standing for `null`). -/
def getItem {α : Type} : StoreState α → Except Unit (Option (StoredVal α))
  | .disabled => .error ()
  | .avail cell _ => .ok cell

/-- `localStorage.setItem(key, JSON.stringify(v))`: throws if the store is
disabled or the quota is exceeded, otherwise replaces the cell. -/
def setItem {α : Type} : StoreState α → StoredVal α → Except Unit (StoreState α)
  | .disabled, _ => .error ()
  | .avail _ true, _ => .error ()
  | .avail _ false, v => .ok (.avail (some v) false)

/-- `JSON.parse` applied to a stored raw value: throws on a corrupt
string, otherwise yields the parsed array. -/
def jsonParseArr {α : Type} : StoredVal α → Except Unit (List α)
  | .corrupt => .error ()
  | .arr l => .ok l

/-- A store whose key holds the serialized form of `l` and whose
operations succeed. -/
def mkStore {α : Type} (l : List α) : StoreState α :=
  .avail (some (.arr l)) false

/-! ## Shared string helpers (jQuery / JS semantics) -/

/-- The whitespace class trimmed by `$.trim` / `String.prototype.trim`. -/
def isJsSpace (c : Char) : Bool :=
  c == ' ' || c == '\t' || c == '\n' || c == '\r' || c == '\x0b' || c == '\x0c'

/-- `$.trim(s)` / `s.trim()`: strip leading and trailing whitespace. -/
def jsTrim (s : String) : String :=
  ⟨((s.data.dropWhile isJsSpace).reverse.dropWhile isJsSpace).reverse⟩

/-- `x || ""` on a possibly-absent string field (`undefined` becomes `""`,
and the empty string — the only falsy string — is mapped to itself). -/
def jsOrEmpty : Option String → String
  | none => ""
  | some s => s

/-- `a || b` on strings: `b` exactly when `a` is the empty string. -/
def jsOrStr (a b : String) : String :=
  if a = "" then b else a

/-- The test of `/^[^\s@]+@[^\s@]+\.[^\s@]+$/` (EMAIL_PATTERN, shared by
the contact form and the registration form).  A string matches exactly
when it has no whitespace, exactly one `@`, a nonempty part before the
`@`, and a `.` strictly inside the part after the `@`. -/
def EMAIL_PATTERN_test (s : String) : Bool :=
  let cs := s.data
  let loc := cs.takeWhile (fun c => c != '@')
  let domain := (cs.dropWhile (fun c => c != '@')).drop 1
  cs.all (fun c => !(isJsSpace c)) && cs.count '@' == 1 &&
    decide (1 ≤ loc.length) && ((domain.drop 1).dropLast.contains '.')

/-- A `{ valid, message }` result returned by every validator. -/
structure ValidationResult where
  valid : Bool
  message : String
  deriving DecidableEq

/-! ## Contact form (src/js/contactForm.js) -/

/-- MIN_NAME_LENGTH. -/
def MIN_NAME_LENGTH : Nat := 2

/-- MIN_MESSAGE_LENGTH. -/
def MIN_MESSAGE_LENGTH : Nat := 10

/-- An Inquiry record persisted under `codeBrewInquiries`. -/
structure Inquiry where
  name : String
  email : String
  subject : String
  message : String
  submittedAt : String
  deriving DecidableEq

/-- `validateField($field, $errorSpan)`: trims the field value, computes
the error message for the field named `fieldName`, and reports validity
(the DOM class/text updates are outside the model; the returned message is
what the error span is set to). -/
def validateField (fieldName : String) (rawValue : String) : ValidationResult :=
  let value := jsTrim rawValue
  let errorMessage :=
    if fieldName = "name" then
      if value.length = 0 then "Full name is required."
      else if value.length < MIN_NAME_LENGTH then "Name must be at least 2 characters."
      else ""
    else if fieldName = "email" then
      if value.length = 0 then "Email address is required."
      else if !(EMAIL_PATTERN_test value) then "Please enter a valid email address."
      else ""
    else if fieldName = "message" then
      if value.length = 0 then "Message is required."
      else if value.length < MIN_MESSAGE_LENGTH then "Message must be at least 10 characters."
      else ""
    else ""
  if errorMessage ≠ "" then ⟨false, errorMessage⟩ else ⟨true, ""⟩

/-- `validateForm($form)`: the conjunction of the three field
validations (each one is evaluated in the source, so no short-circuit
effects are lost by taking the pure conjunction). -/
def validateForm (nameVal emailVal messageVal : String) : Bool :=
  (validateField "name" nameVal).valid &&
    (validateField "email" emailVal).valid &&
    (validateField "message" messageVal).valid

/-- Body of the try block of `loadSubmissions`. -/
def loadSubmissionsE (s : StoreState Inquiry) : Except Unit (List Inquiry) := do
  let data ← getItem s
  match data with
  | none => pure []
  | some raw => jsonParseArr raw

/-- `loadSubmissions()`: try/catch around get-and-parse; a caught
exception yields the empty array. -/
def loadSubmissions (s : StoreState Inquiry) : List Inquiry :=
  match loadSubmissionsE s with
  | .ok l => l
  | .error _ => []

/-- `saveSubmission(formData)`: load, push, write back; a write exception
is caught and logged, leaving the store as it was. -/
def saveSubmission (s : StoreState Inquiry) (formData : Inquiry) : StoreState Inquiry :=
  let submissions := loadSubmissions s ++ [formData]
  match setItem s (.arr submissions) with
  | .ok s2 => s2
  | .error _ => s

/-- The submit handler's data path: on full validation success build
`formData` from the trimmed field values (subject defaulting to
"(No subject)" when trimmed-empty) and persist it; on failure leave the
store untouched.  Returns the store and whether the submission happened;
`nowIso` stands for `new Date().toISOString()`. -/
def submitContactForm (nameVal emailVal subjectVal messageVal nowIso : String)
    (s : StoreState Inquiry) : StoreState Inquiry × Bool :=
  if validateForm nameVal emailVal messageVal then
    let formData : Inquiry :=
      { name := jsTrim nameVal
        email := jsTrim emailVal
        subject := jsOrStr (jsTrim subjectVal) "(No subject)"
        message := jsTrim messageVal
        submittedAt := nowIso }
    (saveSubmission s formData, true)
  else
    (s, false)

/-! ## Favorites dashboard (unnamed welcome-dashboard script) -/

/-- A FavoriteDrink record persisted under `favoriteDrinks`. -/
structure FavoriteDrink where
  id : Int
  name : String
  size : String
  customization : String
  notes : String
  addedAt : String
  deriving DecidableEq

/-- The `{ name, size, customization, notes }` object passed to
`addFavorite` / `updateFavorite`; the optional fields may be absent. -/
structure DrinkFields where
  name : String
  size : String
  customization : Option String
  notes : Option String
  deriving DecidableEq

/-- Body of the try block of `loadFavorites`. -/
def loadFavoritesE (s : StoreState FavoriteDrink) : Except Unit (List FavoriteDrink) := do
  let raw ← getItem s
  match raw with
  | none => pure []
  | some v => jsonParseArr v

/-- `loadFavorites()`: try/catch around get-and-parse; a caught exception
yields the empty array. -/
def loadFavorites (s : StoreState FavoriteDrink) : List FavoriteDrink :=
  match loadFavoritesE s with
  | .ok l => l
  | .error _ => []

/-- `saveFavorites(favorites)`: write, catching and logging exceptions. -/
def saveFavorites (s : StoreState FavoriteDrink) (favorites : List FavoriteDrink) :
    StoreState FavoriteDrink :=
  match setItem s (.arr favorites) with
  | .ok s2 => s2
  | .error _ => s

/-- `addFavorite(drink)`: build `newDrink` with id `Date.now()` (`now`)
and timestamp `new Date().toISOString()` (`nowIso`), push it onto the
loaded list and save.  Returns the updated store and the saved drink. -/
def addFavorite (s : StoreState FavoriteDrink) (drink : DrinkFields)
    (now : Int) (nowIso : String) : StoreState FavoriteDrink × FavoriteDrink :=
  let favorites := loadFavorites s
  let newDrink : FavoriteDrink :=
    { id := now
      name := drink.name
      size := drink.size
      customization := jsOrEmpty drink.customization
      notes := jsOrEmpty drink.notes
      addedAt := nowIso }
  (saveFavorites s (favorites ++ [newDrink]), newDrink)

/-- The field assignments performed on `favorites[i]` inside
`updateFavorite`'s loop (id and addedAt are not assigned). -/
def applyUpdates (f : FavoriteDrink) (updates : DrinkFields) : FavoriteDrink :=
  { f with
      name := updates.name
      size := updates.size
      customization := jsOrEmpty updates.customization
      notes := jsOrEmpty updates.notes }

/-- The `for`/`break` loop of `updateFavorite`: rewrite the first record
whose id matches and report whether one was found. -/
def updateList (i : Int) (updates : DrinkFields) : List FavoriteDrink → List FavoriteDrink × Bool
  | [] => ([], false)
  | f :: rest =>
    if f.id = i then
      (applyUpdates f updates :: rest, true)
    else
      let p := updateList i updates rest
      (f :: p.1, p.2)

/-- `updateFavorite(id, updates)`: load, rewrite the first match in
place, save only when found, return whether a match was found. -/
def updateFavorite (s : StoreState FavoriteDrink) (i : Int) (updates : DrinkFields) :
    StoreState FavoriteDrink × Bool :=
  let favorites := loadFavorites s
  let p := updateList i updates favorites
  if p.2 then (saveFavorites s p.1, true) else (s, false)

/-- `deleteFavorite(id)`: load, keep every record whose id differs, save
only when the list shrank, return whether it shrank. -/
def deleteFavorite (s : StoreState FavoriteDrink) (i : Int) :
    StoreState FavoriteDrink × Bool :=
  let favorites := loadFavorites s
  let next := favorites.filter (fun f => f.id != i)
  let deleted := next.length < favorites.length
  if deleted then (saveFavorites s next, true) else (s, false)

/-! ## Registration form (unnamed account-creation script) -/

/-- MIN_PASSWORD_LENGTH. -/
def MIN_PASSWORD_LENGTH : Nat := 8

/-- MIN_USERNAME_LENGTH. -/
def MIN_USERNAME_LENGTH : Nat := 3

/-- MAX_USERNAME_LENGTH. -/
def MAX_USERNAME_LENGTH : Nat := 20

/-- Membership in `/[A-Z]/`. -/
def isUpperAZ (c : Char) : Bool := 'A' ≤ c && c ≤ 'Z'

/-- Membership in `/[a-z]/`. -/
def isLowerAZ (c : Char) : Bool := 'a' ≤ c && c ≤ 'z'

/-- Membership in `/[0-9]/`. -/
def isDigit09 (c : Char) : Bool := '0' ≤ c && c ≤ '9'

/-- Membership in PASSWORD_SPECIAL_CHARS_REGEX `/[!@#$%^&*]/`. -/
def isPasswordSpecial (c : Char) : Bool :=
  c == '!' || c == '@' || c == '#' || c == '$' || c == '%' || c == '^' || c == '&' || c == '*'

/-- Membership in `/[a-zA-Z0-9]/`. -/
def isAlnumChar (c : Char) : Bool := isLowerAZ c || isUpperAZ c || isDigit09 c

/-- The test of `/^[a-zA-Z0-9]+$/`: nonempty and all characters
alphanumeric. -/
def alnumTest (s : String) : Bool :=
  !s.data.isEmpty && s.data.all isAlnumChar

/-- `validateUsername(username)`. -/
def validateUsername (username : String) : ValidationResult :=
  if username = "" || (jsTrim username).length < MIN_USERNAME_LENGTH then
    ⟨false, "Username must be at least 3 characters."⟩
  else if (jsTrim username).length > MAX_USERNAME_LENGTH then
    ⟨false, "Username must be no more than 20 characters."⟩
  else if !(alnumTest (jsTrim username)) then
    ⟨false, "Username can only contain letters and numbers."⟩
  else
    ⟨true, ""⟩

/-- `validateEmail(email)` of the registration script. -/
def validateEmail (email : String) : ValidationResult :=
  if email = "" || (jsTrim email).length = 0 then
    ⟨false, "Email address is required."⟩
  else if !(EMAIL_PATTERN_test (jsTrim email)) then
    ⟨false, "Please enter a valid email address."⟩
  else
    ⟨true, ""⟩

/-- The per-requirement map of `checkPasswordRequirements(password)`. -/
structure PasswordReqs where
  length : Bool
  uppercase : Bool
  lowercase : Bool
  number : Bool
  special : Bool
  deriving DecidableEq

/-- `checkPasswordRequirements(password)`. -/
def checkPasswordRequirements (password : String) : PasswordReqs :=
  { length := decide (password.length ≥ MIN_PASSWORD_LENGTH)
    uppercase := password.data.any isUpperAZ
    lowercase := password.data.any isLowerAZ
    number := password.data.any isDigit09
    special := password.data.any isPasswordSpecial }

/-- The `allMet` conjunction computed inside `validatePassword`. -/
def allRequirementsMet (r : PasswordReqs) : Bool :=
  r.length && r.uppercase && r.lowercase && r.number && r.special

/-- `validatePassword(password)`. -/
def validatePassword (password : String) : ValidationResult :=
  if password = "" then
    ⟨false, "Password is required."⟩
  else if !(allRequirementsMet (checkPasswordRequirements password)) then
    ⟨false, "Password does not meet all requirements below."⟩
  else
    ⟨true, ""⟩

/-- `validateConfirmPassword(password, confirm)`. -/
def validateConfirmPassword (password confirm : String) : ValidationResult :=
  if confirm = "" then
    ⟨false, "Please confirm your password."⟩
  else if password ≠ confirm then
    ⟨false, "Passwords do not match."⟩
  else
    ⟨true, ""⟩

/-- The `metCount` tally of `updateStrengthBar`: the `for..in` loop over
the five requirement keys counting the ones met. -/
def metCount (r : PasswordReqs) : Nat :=
  (if r.length then 1 else 0) + (if r.uppercase then 1 else 0) +
    (if r.lowercase then 1 else 0) + (if r.number then 1 else 0) +
    (if r.special then 1 else 0)

/-- The strength tier chain of `updateStrengthBar` (`strength` starts at
"none" and is reassigned by the if/else chain on `metCount`). -/
def strengthTier (password : String) : String :=
  let reqs := checkPasswordRequirements password
  let m := metCount reqs
  if m ≤ 2 then "weak"
  else if m = 3 then "fair"
  else if m = 4 then "good"
  else if m = 5 then "strong"
  else "none"

/-- The UserSession persisted under the ephemeral key `currentUser`. -/
structure UserSession where
  username : String
  email : String
  deriving DecidableEq

/-- The state of the `currentUser` sessionStorage key. -/
inductive SessionState where
  | disabled
  | avail (v : Option UserSession)
  deriving DecidableEq

/-- `sessionStorage.setItem(SESSION_KEY, JSON.stringify(u))` wrapped in
the source's try/catch: a throwing store is left as it is (the error is
only logged). -/
def sessionSetItem : SessionState → UserSession → SessionState
  | .disabled, _ => .disabled
  | .avail _, u => .avail (some u)

/-- `validateAll()`: each field value is read (username and email
trimmed at the read), every validator is run, and the results are
conjoined together with the terms checkbox. -/
def validateAll (username email password confirmPassword : String) (termsChecked : Bool) : Bool :=
  (validateUsername (jsTrim username)).valid &&
    (validateEmail (jsTrim email)).valid &&
    (validatePassword password).valid &&
    (validateConfirmPassword password confirmPassword).valid &&
    termsChecked

/-- `handleFormSubmit(e)`: on full validation success persist
`{ username: trimmed, email: trimmed }` as the session and redirect
(the Bool); otherwise leave the session store untouched. -/
def handleFormSubmit (username email password confirmPassword : String) (terms : Bool)
    (st : SessionState) : SessionState × Bool :=
  if validateAll username email password confirmPassword terms then
    (sessionSetItem st { username := jsTrim username, email := jsTrim email }, true)
  else
    (st, false)

/-! ## Blog renderer (src/js/blog.js) -/

/-- ARTICLES_PER_PAGE. -/
def ARTICLES_PER_PAGE : Nat := 3

/-- An Article of the fixed in-memory dataset. -/
structure Article where
  id : Nat
  title : String
  excerpt : String
  fullText : String
  category : String
  categoryLabel : String
  icon : String
  authorName : String
  authorId : Option Int
  date : String
  deriving DecidableEq

/-- The ARTICLES dataset. -/
def ARTICLES : List Article :=
  [ { id := 1
      title := "The Art of Pour Over: A Beginner's Guide"
      excerpt := "Pour over coffee is more than a brewing method — it's a ritual. Learn the basics and start your morning with intention."
      fullText := "Pour over coffee has become a staple in specialty coffee shops around the world, and for good reason. The method gives you complete control over every variable: water temperature, pour speed, grind size, and brew time. Start with a medium-fine grind, heat your water to about 205°F, and pour in slow, concentric circles. The bloom — that initial pour where the grounds puff up — releases CO2 and sets the stage for a clean, nuanced cup. At Code & Brew, we recommend starting with our single-origin Ethiopian beans for a bright, fruity first pour over experience."
      category := "brewing-tips"
      categoryLabel := "Brewing Tips"
      icon := "☕"
      authorName := "Blue (MavScriptBlu)"
      authorId := none
      date := "2026-02-10" }
  , { id := 2
      title := "How Code & Brew Became Our Second Office"
      excerpt := "A group of local developers share how they found community, focus, and great coffee at Code & Brew."
      fullText := "When our four-person startup needed a change of scenery from the cramped apartment we were working in, we stumbled into Code & Brew on a rainy Tuesday. The Wi-Fi was fast, the outlets were plentiful, and the cappuccinos were outstanding. Within a week we had a regular table. Within a month, we had met three other dev teams who worked there. The staff never rushed us out, the ambient noise was just right for focus, and the pastry chef Quinton started learning our orders. Six months later, Code & Brew isn't just where we work — it's where we belong."
      category := "customer-stories"
      categoryLabel := "Customer Stories"
      icon := "👥"
      authorName := "Jordan M."
      authorId := none
      date := "2026-02-05" }
  , { id := 3
      title := "Single Origin vs. Blends: What's the Difference?"
      excerpt := "Understanding the beans in your cup can change how you taste coffee forever. Here's a breakdown of origins versus blends."
      fullText := "Single origin coffees come from one specific region, farm, or lot. They showcase the terroir — the unique flavor fingerprint of the soil, altitude, and climate where they were grown. You might taste blueberry notes in an Ethiopian Yirgacheffe or chocolate undertones in a Colombian Huila. Blends, on the other hand, combine beans from multiple origins to create a balanced, consistent flavor profile. Neither is better; they serve different purposes. At Code & Brew, our house espresso is a blend designed for a smooth, rich shot, while our rotating single origins on pour over highlight what makes each region special."
      category := "coffee-culture"
      categoryLabel := "Coffee Culture"
      icon := "🌍"
      authorName := "Seng"
      authorId := none
      date := "2026-01-28" }
  , { id := 4
      title := "Cold Brew at Home: The 24-Hour Secret"
      excerpt := "Our baristas share the exact recipe behind the smooth, bold cold brew that keeps customers coming back."
      fullText := "The secret to our cold brew is patience. We use a coarse grind — think sea salt texture — and a 1:8 coffee-to-water ratio. Combine them in a large jar or pitcher, give it a gentle stir, and refrigerate for 24 hours. No heat, no rush. After steeping, strain through a fine mesh sieve lined with cheesecloth. The result is a concentrate you can dilute with water or milk to taste. It's naturally sweeter and lower in acidity than hot-brewed coffee. Pro tip: make a double batch on Sunday and you'll have smooth cold brew all week."
      category := "brewing-tips"
      categoryLabel := "Brewing Tips"
      icon := "🧊"
      authorName := "Tyler"
      authorId := none
      date := "2026-01-20" }
  , { id := 5
      title := "From Burnout to Balance: A Developer's Coffee Journey"
      excerpt := "One regular shares how slowing down for a good cup of coffee helped her rethink work-life balance."
      fullText := "I used to drink coffee like fuel — fast, forgettable, and from a pod machine. I was burning through 60-hour weeks and my code was suffering. A coworker dragged me to Code & Brew one afternoon and ordered me a cortado. I watched the barista pull the shot, steam the milk, and pour it with care. That four-ounce drink took five minutes to make and ten minutes to enjoy, and it was the first time in months I actually paused. Now I come in every morning before stand-up. That 20-minute ritual — ordering, waiting, sipping — resets my brain. My code reviews are cleaner, my PRs are smaller, and I actually enjoy my mornings again."
      category := "customer-stories"
      categoryLabel := "Customer Stories"
      icon := "💻"
      authorName := "Priya K."
      authorId := none
      date := "2026-01-15" }
  , { id := 6
      title := "The Third Wave: How Specialty Coffee Changed Everything"
      excerpt := "From commodity to craft — a look at the movement that transformed how the world drinks coffee."
      fullText := "The first wave of coffee was about access: instant coffee, diner pots, Maxwell House. The second wave, led by chains like Starbucks, introduced espresso drinks and the coffeehouse experience to the mainstream. The third wave treats coffee like wine — emphasizing origin, processing method, roast profile, and brewing technique. It's the reason you see tasting notes on bags and baristas competing in latte art championships. At Code & Brew, we source from third-wave roasters who pay fair prices to farmers and roast in small batches. Every cup tells a story that stretches from a hillside in Guatemala to your table in Stevens Point."
      category := "coffee-culture"
      categoryLabel := "Coffee Culture"
      icon := "✨"
      authorName := "Blue (MavScriptBlu)"
      authorId := none
      date := "2026-01-08" }
  ]

/-- `getFilteredArticles()` over explicit state: the whole list when the
active category is "all", otherwise the category-equal articles. -/
def getFilteredArticles (articles : List Article) (activeCategory : String) : List Article :=
  if activeCategory = "all" then
    articles
  else
    articles.filter (fun article => article.category == activeCategory)

/-- The view-model core of `renderArticles()`: the cards inserted into
the grid and whether the load-more control is shown.  When nothing is to
be shown the source returns early with the load-more control hidden;
otherwise the control is hidden exactly when `visibleCount` has reached
the filtered total. -/
def renderArticles (articles : List Article) (activeCategory : String) (visibleCount : Nat) :
    List Article × Bool :=
  let filtered := getFilteredArticles articles activeCategory
  let toShow := filtered.take visibleCount
  if toShow.length = 0 then
    (toShow, false)
  else
    (toShow, !(decide (visibleCount ≥ filtered.length)))

/-- Modelled from the spec: the §4.5 filter predicate, `"all"` matching
everything and any other filter matching by category equality. -/
def specMatches (flt : String) (article : Article) : Bool :=
  flt == "all" || article.category == flt

/-- Modelled from the spec: the §4.5 contract
`view(items, filter, visibleCount) -> { shown, hasMore }` with
`shown = items.filter(matchesFilter).slice(0, visibleCount)` and
`hasMore = visibleCount < filteredTotal`. -/
def specView (items : List Article) (flt : String) (visibleCount : Nat) :
    List Article × Bool :=
  let filtered := items.filter (specMatches flt)
  (filtered.take visibleCount, decide (visibleCount < filtered.length))

/-! ## Concrete records used by counterexamples and witnesses -/

/-- A concrete inquiry used to exercise the append round-trip. -/
def dupInquiry : Inquiry :=
  { name := "Al"
    email := "al@example.com"
    subject := "(No subject)"
    message := "Hello there!!"
    submittedAt := "2026-02-10T10:00:00.000Z" }

/-- A concrete favorite with id 1. -/
def drinkA : FavoriteDrink :=
  { id := 1, name := "Latte", size := "Medium", customization := "", notes := ""
    addedAt := "2026-02-10T10:00:00.000Z" }

/-- A second concrete favorite that shares id 1 with `drinkA`. -/
def drinkB : FavoriteDrink :=
  { id := 1, name := "Mocha", size := "Small", customization := "", notes := ""
    addedAt := "2026-02-10T10:00:00.001Z" }

/-- A concrete favorite with id 2 and nonempty optional fields. -/
def drinkC : FavoriteDrink :=
  { id := 2, name := "Cortado", size := "Small", customization := "oat milk", notes := "extra hot"
    addedAt := "2026-02-10T10:00:01.000Z" }

/-- Concrete update fields with both optional fields present. -/
def updFields : DrinkFields :=
  { name := "Flat White", size := "Large", customization := some "soy milk", notes := some "no foam" }

/-- Concrete update fields whose optional fields are absent. -/
def updFieldsBare : DrinkFields :=
  { name := "Flat White", size := "Large", customization := none, notes := none }

/-! ## Helper lemmas -/

/-- Reading a freshly written working store yields the written list. -/
theorem loadFavorites_mkStore (l : List FavoriteDrink) : loadFavorites (mkStore l) = l := rfl

/-- Reading a freshly written working store yields the written list. -/
theorem loadSubmissions_mkStore (l : List Inquiry) : loadSubmissions (mkStore l) = l := rfl

/-- Saving onto a working store produces the working store holding the
saved list. -/
theorem saveFavorites_mkStore (l l2 : List FavoriteDrink) :
    saveFavorites (mkStore l) l2 = mkStore l2 := rfl

/-- A string all of whose characters are `$.trim` whitespace trims to the
empty string. -/
theorem jsTrim_eq_empty_of_all_space (s : String)
    (h : ∀ c ∈ s.data, isJsSpace c = true) : jsTrim s = "" := by
  unfold jsTrim
  rw [List.dropWhile_eq_nil_iff.mpr h]
  rfl

/-- The filtered list of `deleteFavorite` is strictly shorter exactly
when some record carries the deleted id. -/
theorem length_filter_ne_lt_iff (l : List FavoriteDrink) (i : Int) :
    (l.filter (fun f => f.id != i)).length < l.length ↔ ∃ f ∈ l, f.id = i := by
  rw [List.length_filter_lt_length_iff_exists]
  simp

/-- `updateList` on a list without the id is the identity, reporting no
match. -/
theorem updateList_not_found (i : Int) (u : DrinkFields) (l : List FavoriteDrink)
    (h : ∀ g ∈ l, g.id ≠ i) : updateList i u l = (l, false) := by
  induction l with
  | nil => rfl
  | cons f rest ih =>
    have hf : f.id ≠ i := h f (List.mem_cons_self f rest)
    simp only [updateList, if_neg hf]
    rw [ih (fun g hg => h g (List.mem_cons_of_mem f hg))]

/-- `updateList` rewrites exactly the first record carrying the id,
leaving its position and every other record unchanged. -/
theorem updateList_found (i : Int) (u : DrinkFields) (pre post : List FavoriteDrink)
    (f : FavoriteDrink) (hpre : ∀ g ∈ pre, g.id ≠ i) (hf : f.id = i) :
    updateList i u (pre ++ f :: post) = (pre ++ applyUpdates f u :: post, true) := by
  induction pre with
  | nil => simp [updateList, hf]
  | cons g rest ih =>
    have hg : g.id ≠ i := hpre g (List.mem_cons_self g rest)
    have ih2 := ih (fun g2 hg2 => hpre g2 (List.mem_cons_of_mem g hg2))
    simp only [List.cons_append, updateList, if_neg hg, List.append_eq, ih2]

/-! ## Claim theorems -/

/-- C1: For every stored value under a repository key, the store-adapter
read operations `loadSubmissions` and `loadFavorites` never propagate an
exception: on a missing key, on JSON parse failure, or on a storage
exception they return the empty sequence, and on a stored parseable
sequence they return it. -/
theorem c1_store_read_never_throws :
    (∀ q : Bool, loadFavorites (.avail none q) = [] ∧ loadSubmissions (.avail none q) = []) ∧
    (∀ q : Bool, loadFavorites (.avail (some .corrupt) q) = [] ∧
      loadSubmissions (.avail (some .corrupt) q) = []) ∧
    (loadFavorites .disabled = [] ∧ loadSubmissions .disabled = []) ∧
    (∀ (q : Bool) (l : List FavoriteDrink), loadFavorites (.avail (some (.arr l)) q) = l) ∧
    (∀ (q : Bool) (l : List Inquiry), loadSubmissions (.avail (some (.arr l)) q) = l) := by
  refine ⟨fun q => ⟨rfl, rfl⟩, fun q => ⟨rfl, rfl⟩, ⟨rfl, rfl⟩, fun q l => rfl, fun q l => rfl⟩

/-- C2 counterexample: appending a record that is already present in the
prior collection yields two occurrences, not exactly one. -/
theorem c2_counterexample :
    (loadSubmissions (saveSubmission (mkStore [dupInquiry]) dupInquiry)).count dupInquiry = 2 ∧
      (loadSubmissions (saveSubmission (mkStore [dupInquiry]) dupInquiry)).count dupInquiry ≠ 1 := by
  constructor <;> decide

/-- C2 (amended): on a working store, appending a record via
`saveSubmission` / `addFavorite` and reading back yields the prior
sequence with the record appended as the last element, the prior entries
kept in their original order, and the record occurring exactly one more
time than before (hence exactly once whenever it was not already
present). -/
theorem c2_append_round_trip (l : List Inquiry) (x : Inquiry)
    (lf : List FavoriteDrink) (d : DrinkFields) (now : Int) (nowIso : String) :
    loadSubmissions (saveSubmission (mkStore l) x) = l ++ [x] ∧
    (loadSubmissions (saveSubmission (mkStore l) x)).count x = l.count x + 1 ∧
    loadFavorites (addFavorite (mkStore lf) d now nowIso).1 =
      lf ++ [(addFavorite (mkStore lf) d now nowIso).2] := by
  refine ⟨rfl, ?_, rfl⟩
  show (l ++ [x]).count x = l.count x + 1
  simp

/-- C3 counterexample: with two stored records sharing id 1, deleting id
1 removes both — the later record with the same id is not retained, so
the persisted collection is empty rather than the singleton of the
second record. -/
theorem c3_counterexample :
    loadFavorites (deleteFavorite (mkStore [drinkA, drinkB]) 1).1 = [] ∧
      loadFavorites (deleteFavorite (mkStore [drinkA, drinkB]) 1).1 ≠ [drinkB] := by
  constructor <;> decide

/-- C3 (amended): on a working store, `deleteFavorite` removes every
record whose id matches (not only the first), persists the filtered
collection, and returns true exactly when a record with that id was
present. -/
theorem c3_delete_by_id (l : List FavoriteDrink) (i : Int) :
    ((deleteFavorite (mkStore l) i).2 = true ↔ ∃ f ∈ l, f.id = i) ∧
    loadFavorites (deleteFavorite (mkStore l) i).1 = l.filter (fun f => f.id != i) := by
  constructor
  · unfold deleteFavorite
    rw [loadFavorites_mkStore]
    by_cases h : (l.filter (fun f => f.id != i)).length < l.length
    · simp only [if_pos h]
      simpa using (length_filter_ne_lt_iff l i).mp h
    · simp only [if_neg h]
      simp only [Bool.false_eq_true, false_iff]
      exact fun hex => h ((length_filter_ne_lt_iff l i).mpr hex)
  · unfold deleteFavorite
    rw [loadFavorites_mkStore]
    by_cases h : (l.filter (fun f => f.id != i)).length < l.length
    · simp only [if_pos h, saveFavorites_mkStore, loadFavorites_mkStore]
    · simp only [if_neg h]
      rw [loadFavorites_mkStore]
      have hle : (l.filter (fun f => f.id != i)).length = l.length :=
        Nat.le_antisymm (l.length_filter_le _) (Nat.le_of_not_lt h)
      exact ((l.filter_sublist (p := fun f => f.id != i)).eq_of_length hle).symm

/-- C5: on a working store, deleting an id that no stored record carries
returns false and leaves the store — and hence the persisted collection,
its elements and their order — unchanged. -/
theorem c5_delete_absent_id (l : List FavoriteDrink) (i : Int)
    (h : ∀ f ∈ l, f.id ≠ i) :
    deleteFavorite (mkStore l) i = (mkStore l, false) ∧
      loadFavorites (deleteFavorite (mkStore l) i).1 = l := by
  have hnone : ¬ ∃ f ∈ l, f.id = i := by
    rintro ⟨f, hf, hfi⟩
    exact h f hf hfi
  have hnl : ¬ (l.filter (fun f => f.id != i)).length < l.length :=
    fun hlt => hnone ((length_filter_ne_lt_iff l i).mp hlt)
  constructor
  · unfold deleteFavorite
    rw [loadFavorites_mkStore]
    simp only [if_neg hnl]
  · unfold deleteFavorite
    rw [loadFavorites_mkStore]
    simp only [if_neg hnl]
    exact loadFavorites_mkStore l

/-- C5 witness: deleting the absent id 99 from a store holding only a
record with id 1 returns false and leaves the collection unchanged. -/
theorem c5_delete_absent_id_witness :
    deleteFavorite (mkStore [drinkA]) 99 = (mkStore [drinkA], false) ∧
      loadFavorites (deleteFavorite (mkStore [drinkA]) 99).1 = [drinkA] :=
  c5_delete_absent_id [drinkA] 99 (by decide)

/-- C4: on a working store, `updateFavorite` rewrites the mutable fields
(name, size, customization, notes) of the first record whose id matches,
keeps that record's id, addedAt and position as well as every other
record, persists the collection and returns true; when no record matches
it leaves the store untouched and returns false. -/
theorem c4_update_by_id (pre post : List FavoriteDrink) (f : FavoriteDrink)
    (i : Int) (u : DrinkFields) (l : List FavoriteDrink) :
    ((∀ g ∈ pre, g.id ≠ i) → f.id = i →
        updateFavorite (mkStore (pre ++ f :: post)) i u =
          (mkStore (pre ++ applyUpdates f u :: post), true) ∧
        (applyUpdates f u).id = f.id ∧
        (applyUpdates f u).addedAt = f.addedAt ∧
        (applyUpdates f u).name = u.name ∧
        (applyUpdates f u).size = u.size) ∧
    ((∀ g ∈ l, g.id ≠ i) → updateFavorite (mkStore l) i u = (mkStore l, false)) := by
  constructor
  · intro hpre hf
    refine ⟨?_, rfl, rfl, rfl, rfl⟩
    simp only [updateFavorite, loadFavorites_mkStore,
      updateList_found i u pre post f hpre hf, saveFavorites_mkStore, if_true]
  · intro h
    simp only [updateFavorite, loadFavorites_mkStore, updateList_not_found i u l h,
      Bool.false_eq_true, if_false]

/-- C4 witness: updating id 2 in a two-record store rewrites exactly the
second record in place and returns true; updating the absent id 99 is a
no-op returning false. -/
theorem c4_update_by_id_witness :
    updateFavorite (mkStore ([drinkA] ++ drinkC :: [])) 2 updFields =
        (mkStore ([drinkA] ++ applyUpdates drinkC updFields :: []), true) ∧
      updateFavorite (mkStore [drinkA]) 99 updFields = (mkStore [drinkA], false) := by
  have h := c4_update_by_id [drinkA] [] drinkC 2 updFields [drinkA]
  exact ⟨(h.1 (by decide) (by decide)).1, h.2 (by decide)⟩

/-- C9: when the updates object passed to `updateFavorite` has an absent
or empty customization (resp. notes), the rewritten record's
customization (resp. notes) is the empty string — the previous value of
the field is overwritten, not kept; the stored collection is the prior
one with the first matching record so rewritten. -/
theorem c9_update_clears_optional_fields (pre post : List FavoriteDrink)
    (f : FavoriteDrink) (i : Int) (u : DrinkFields)
    (hpre : ∀ g ∈ pre, g.id ≠ i) (hf : f.id = i) :
    loadFavorites (updateFavorite (mkStore (pre ++ f :: post)) i u).1 =
        pre ++ applyUpdates f u :: post ∧
      (u.customization = none ∨ u.customization = some "" →
        (applyUpdates f u).customization = "") ∧
      (u.notes = none ∨ u.notes = some "" → (applyUpdates f u).notes = "") := by
  refine ⟨?_, ?_, ?_⟩
  · simp only [updateFavorite, loadFavorites_mkStore,
      updateList_found i u pre post f hpre hf, saveFavorites_mkStore, if_true]
  · rintro (hc | hc) <;> simp [applyUpdates, hc, jsOrEmpty]
  · rintro (hn | hn) <;> simp [applyUpdates, hn, jsOrEmpty]

/-- C9 witness: updating the record with id 2 — whose customization is
"oat milk" and whose notes are "extra hot" — with updates that omit both
optional fields stores a record whose customization and notes are the
empty string. -/
theorem c9_update_clears_optional_fields_witness :
    loadFavorites (updateFavorite (mkStore ([drinkA] ++ drinkC :: [])) 2 updFieldsBare).1 =
        [drinkA] ++ applyUpdates drinkC updFieldsBare :: [] ∧
      (applyUpdates drinkC updFieldsBare).customization = "" ∧
      (applyUpdates drinkC updFieldsBare).notes = "" := by
  have h := c9_update_clears_optional_fields [drinkA] [] drinkC 2 updFieldsBare
    (by decide) (by decide)
  exact ⟨h.1, h.2.1 (Or.inl rfl), h.2.2 (Or.inl rfl)⟩

/-- C6 counterexample: with the six-article dataset, an unfiltered view
at visibleCount 0 reports no more-available even though 0 is strictly
below the filtered total of 6, so the renderer differs from the spec's
`hasMore = visibleCount < filteredTotal` contract there. -/
theorem c6_counterexample :
    (renderArticles ARTICLES "all" 0).2 = false ∧
      (specView ARTICLES "all" 0).2 = true ∧
      renderArticles ARTICLES "all" 0 ≠ specView ARTICLES "all" 0 := by
  refine ⟨rfl, rfl, by decide⟩

/-- C6 (amended): the renderer shows exactly the items matching the
filter truncated to the first visibleCount, and reports more-available
exactly when visibleCount is nonzero and strictly below the filtered
total (at visibleCount 0 the renderer takes its empty branch and reports
none); in particular, on the six-article dataset with page size 3,
more-available is true at visibleCount 3 and false at 6, and filtering
by "coffee-culture" shows only matching-category items. -/
theorem c6_render_view (items : List Article) (flt : String) (vc : Nat) :
    (renderArticles items flt vc).1 = (specView items flt vc).1 ∧
    (renderArticles items flt vc).2 = (decide (0 < vc) && (specView items flt vc).2) ∧
    (renderArticles ARTICLES "all" ARTICLES_PER_PAGE).2 = true ∧
    (renderArticles ARTICLES "all" 6).2 = false ∧
    (∀ a ∈ (renderArticles ARTICLES "coffee-culture" ARTICLES_PER_PAGE).1,
      a.category = "coffee-culture") := by
  have hfe : getFilteredArticles items flt = items.filter (specMatches flt) := by
    unfold getFilteredArticles specMatches
    by_cases h : flt = "all"
    · subst h
      simp
    · have hb : (flt == "all") = false := beq_eq_false_iff_ne.mpr h
      simp [h, hb]
  refine ⟨?_, ?_, rfl, rfl, by decide⟩
  · simp only [renderArticles, specView, hfe]
    split <;> rfl
  · simp only [renderArticles, specView, hfe]
    rcases vc with _ | n
    · simp
    · rcases hfl : items.filter (specMatches flt) with _ | ⟨a, rest⟩
      · simp
      · have h0 : ((a :: rest).take (n + 1)).length ≠ 0 := by simp
        simp [h0, ← decide_not, Nat.not_lt]

/-- C7: every non-empty password failing at least one of the five
requirement classes is rejected by `validatePassword`, and its strength
tier — computed from the count of met requirements — is strictly below
"strong". -/
theorem c7_weak_password_rejected (p : String) (hne : p ≠ "")
    (hfail : allRequirementsMet (checkPasswordRequirements p) = false) :
    (validatePassword p).valid = false ∧ strengthTier p ≠ "strong" := by
  constructor
  · simp [validatePassword, hne, hfail]
  · simp only [strengthTier]
    generalize hR : checkPasswordRequirements p = r at hfail ⊢
    obtain ⟨a, b, c, d, e⟩ := r
    revert hfail
    cases a <;> cases b <;> cases c <;> cases d <;> cases e <;> decide

/-- C7 witness: "abc12345" is non-empty, misses the uppercase and
special-character classes, is rejected, and its tier is below
"strong". -/
theorem c7_weak_password_rejected_witness :
    ("abc12345" ≠ "" ∧
        allRequirementsMet (checkPasswordRequirements "abc12345") = false) ∧
      (validatePassword "abc12345").valid = false ∧ strengthTier "abc12345" ≠ "strong" :=
  ⟨⟨by decide, by decide⟩, c7_weak_password_rejected "abc12345" (by decide) (by decide)⟩

/-- C8: a registration submission passing full validation persists a
session holding exactly the trimmed username and trimmed email; the
passwords influence only whether validation passes, so two passing
submissions that differ only in their passwords persist identical
session data. -/
theorem c8_password_never_persisted (u e p1 c1 p2 c2 : String) (t : Bool)
    (v : Option UserSession)
    (h1 : validateAll u e p1 c1 t = true) (h2 : validateAll u e p2 c2 t = true) :
    handleFormSubmit u e p1 c1 t (.avail v) =
        (.avail (some { username := jsTrim u, email := jsTrim e }), true) ∧
      handleFormSubmit u e p1 c1 t (.avail v) = handleFormSubmit u e p2 c2 t (.avail v) := by
  constructor <;> simp [handleFormSubmit, h1, h2, sessionSetItem]

/-- C8 witness: two valid registrations for "alice" differing only in
their passwords persist the same session, holding only the username and
email. -/
theorem c8_password_never_persisted_witness :
    handleFormSubmit "alice" "a@b.com" "Abcdef1!" "Abcdef1!" true (.avail none) =
        (.avail (some { username := jsTrim "alice", email := jsTrim "a@b.com" }), true) ∧
      handleFormSubmit "alice" "a@b.com" "Abcdef1!" "Abcdef1!" true (.avail none) =
        handleFormSubmit "alice" "a@b.com" "Zyxwvu9$" "Zyxwvu9$" true (.avail none) :=
  c8_password_never_persisted "alice" "a@b.com" "Abcdef1!" "Abcdef1!" "Zyxwvu9$" "Zyxwvu9$"
    true none (by decide) (by decide)

/-- C10: `validateField` trims before checking, so a whitespace-only
value is rejected with the "required" message for each of name, email
and message; and the Inquiry persisted by a successful submit holds the
trimmed field values (with the trimmed-empty subject defaulted), not the
raw input. -/
theorem c10_trimmed_validation_and_persistence
    (w nameVal emailVal subjectVal messageVal nowIso : String) (l : List Inquiry)
    (hw : ∀ c ∈ w.data, isJsSpace c = true)
    (hv : validateForm nameVal emailVal messageVal = true) :
    validateField "name" w = ⟨false, "Full name is required."⟩ ∧
    validateField "email" w = ⟨false, "Email address is required."⟩ ∧
    validateField "message" w = ⟨false, "Message is required."⟩ ∧
    loadSubmissions (submitContactForm nameVal emailVal subjectVal messageVal nowIso
        (mkStore l)).1 =
      l ++ [{ name := jsTrim nameVal
              email := jsTrim emailVal
              subject := jsOrStr (jsTrim subjectVal) "(No subject)"
              message := jsTrim messageVal
              submittedAt := nowIso }] := by
  have ht : jsTrim w = "" := jsTrim_eq_empty_of_all_space w hw
  refine ⟨?_, ?_, ?_, ?_⟩
  · simp [validateField, ht]
  · simp [validateField, ht]
  · simp [validateField, ht]
  · simp only [submitContactForm, hv, if_true]
    rfl

/-- C10 witness: the whitespace-only value "   " is rejected as required
for all three fields, and submitting name "Al", email "a@b.com", empty
subject and message "Hello there" persists the trimmed record with the
defaulted subject. -/
theorem c10_trimmed_validation_and_persistence_witness :
    validateField "name" "   " = ⟨false, "Full name is required."⟩ ∧
    validateField "email" "   " = ⟨false, "Email address is required."⟩ ∧
    validateField "message" "   " = ⟨false, "Message is required."⟩ ∧
    loadSubmissions (submitContactForm " Al " "a@b.com " "" "Hello there"
        "2026-02-10T10:00:00.000Z" (mkStore [])).1 =
      [] ++ [{ name := jsTrim " Al "
               email := jsTrim "a@b.com "
               subject := jsOrStr (jsTrim "") "(No subject)"
               message := jsTrim "Hello there"
               submittedAt := "2026-02-10T10:00:00.000Z" }] :=
  c10_trimmed_validation_and_persistence "   " " Al " "a@b.com " "" "Hello there"
    "2026-02-10T10:00:00.000Z" [] (by decide) (by decide)
